import Mathlib

/-!
Verification development for the meeting-notes summarizer lambda
(`src/lambda_function.py`).

The Python source is shallowly embedded: pure methods become Lean
functions; Python exceptions become `Except String` values carrying the
exception message; the network calls to Bedrock (`_call_bedrock`) and S3
(`put_object`) are parameters (oracles), since their behaviour is
external to the program; the in-place mutation of the conversation list
in `_get_bedrock_response_and_append` becomes explicit state passing
(the function returns the new list).

Python standard-library collaborators (`bytes.decode`, `base64.b64decode`,
`json.dumps`, `email` message access) are modelled by executable Lean
functions restricted to the behaviours this repository exercises; each
model carries a doc comment saying what it models.
-/

deriving instance DecidableEq for Except

/-- Model of a byte: a natural number below 256 in intent (not enforced,
the decoders reject out-of-range values). -/
abbrev PyByte := Nat

/-- True for the characters Python's `str.strip` removes
(ASCII whitespace: space, tab, newline, carriage return, vertical tab,
form feed). -/
def is_py_space (c : Char) : Bool :=
  c == ' ' || c == '\t' || c == '\n' || c == '\r' || c == '\x0b' || c == '\x0c'

/-- Model of Python's `str.strip()`: drop leading and trailing whitespace. -/
def py_strip (s : String) : String :=
  String.mk (((s.toList.dropWhile is_py_space).reverse.dropWhile is_py_space).reverse)

/-- True for a UTF-8 continuation byte (0x80-0xBF). -/
def is_cont (b : PyByte) : Bool := 0x80 ≤ b && b ≤ 0xBF

/-- Payload of a continuation byte: its low six bits. -/
def cont_val (b : PyByte) : Nat := b - 0x80

/-- Model of Python's strict UTF-8 decoder (`bytes.decode("utf-8")`):
returns the decoded characters, or an error for any ill-formed sequence
(invalid start byte, truncated sequence, overlong form, surrogate). -/
def utf8_decode_chars : List PyByte → Except String (List Char)
  | [] => Except.ok []
  | b :: rest =>
    if b ≤ 0x7F then
      (utf8_decode_chars rest).map (fun cs => Char.ofNat b :: cs)
    else if 0xC2 ≤ b ∧ b ≤ 0xDF then
      match rest with
      | c1 :: rest2 =>
        if is_cont c1 then
          (utf8_decode_chars rest2).map
            (fun cs => Char.ofNat ((b - 0xC0) * 64 + cont_val c1) :: cs)
        else Except.error "UnicodeDecodeError: invalid continuation byte"
      | [] => Except.error "UnicodeDecodeError: unexpected end of data"
    else if 0xE0 ≤ b ∧ b ≤ 0xEF then
      match rest with
      | c1 :: c2 :: rest2 =>
        let lo1 := if b = 0xE0 then 0xA0 else 0x80
        let hi1 := if b = 0xED then 0x9F else 0xBF
        if lo1 ≤ c1 ∧ c1 ≤ hi1 ∧ is_cont c2 then
          (utf8_decode_chars rest2).map
            (fun cs =>
              Char.ofNat ((b - 0xE0) * 4096 + cont_val c1 * 64 + cont_val c2) :: cs)
        else Except.error "UnicodeDecodeError: invalid continuation byte"
      | _ => Except.error "UnicodeDecodeError: unexpected end of data"
    else if 0xF0 ≤ b ∧ b ≤ 0xF4 then
      match rest with
      | c1 :: c2 :: c3 :: rest2 =>
        let lo1 := if b = 0xF0 then 0x90 else 0x80
        let hi1 := if b = 0xF4 then 0x8F else 0xBF
        if lo1 ≤ c1 ∧ c1 ≤ hi1 ∧ is_cont c2 ∧ is_cont c3 then
          (utf8_decode_chars rest2).map
            (fun cs =>
              Char.ofNat ((b - 0xF0) * 262144 + cont_val c1 * 4096 +
                cont_val c2 * 64 + cont_val c3) :: cs)
        else Except.error "UnicodeDecodeError: invalid continuation byte"
      | _ => Except.error "UnicodeDecodeError: unexpected end of data"
    else Except.error "UnicodeDecodeError: invalid start byte"

/-- Decode a byte list as UTF-8 into a string, or fail as Python does. -/
def utf8_decode (bs : List PyByte) : Except String String :=
  (utf8_decode_chars bs).map String.mk

/-- Model of Python's `bytes.decode("ascii")`: bytes below 128 only. -/
def ascii_decode (bs : List PyByte) : Except String String :=
  if bs.all (fun b => b ≤ 0x7F) then
    Except.ok (String.mk (bs.map Char.ofNat))
  else Except.error "UnicodeDecodeError: ordinal not in range 128"

/-- Lowercase an ASCII letter, leave anything else unchanged. -/
def ascii_lower (c : Char) : Char :=
  if 'A' ≤ c ∧ c ≤ 'Z' then Char.ofNat (c.toNat + 32) else c

/-- ASCII lowercasing of a string, modelling the case-insensitive codec
name lookup (charset names are ASCII). -/
def py_lower (s : String) : String :=
  String.mk (s.toList.map ascii_lower)

/-- Model of Python's `bytes.decode(charset)` (the codec machinery is a
standard-library collaborator), restricted to the codecs exercised here:
utf-8 and ascii; any other codec name fails with a lookup error, as
Python raises `LookupError: unknown encoding` for an unknown codec. -/
def py_decode (charset : String) (bs : List PyByte) : Except String String :=
  let cs := py_lower charset
  if cs = "utf-8" ∨ cs = "utf8" ∨ cs = "u8" then utf8_decode bs
  else if cs = "ascii" ∨ cs = "us-ascii" then ascii_decode bs
  else Except.error ("LookupError: unknown encoding: " ++ charset)

/-- Parsed MIME message, the result of `email.message_from_bytes`: either
a simple part carrying its declared content type (the value of
`get_content_type()`), its declared charset (the value of
`get_content_charset()`, `none` when unspecified), and its
transfer-decoded payload bytes (the value of `get_payload(decode=True)`);
or a multipart container (where `is_multipart()` is true) with its
declared content type and its list of sub-messages. -/
inductive MimeMsg where
  | part (contentType : String) (charset : Option String) (payload : List PyByte) : MimeMsg
  | multipart (contentType : String) (subparts : List MimeMsg) : MimeMsg

/-- True exactly when the message models `is_multipart() == True`. -/
def MimeMsg.isMultipart : MimeMsg → Bool
  | .part _ _ _ => false
  | .multipart _ _ => true

mutual
/-- Model of `Message.walk()`: the message itself followed by the walk of
each sub-message, in document order. -/
def walk_list : MimeMsg → List MimeMsg
  | .part ct cs pl => [.part ct cs pl]
  | .multipart ct subs => .multipart ct subs :: walk_list_many subs

/-- Concatenated walks of a list of sub-messages. -/
def walk_list_many : List MimeMsg → List MimeMsg
  | [] => []
  | m :: ms => walk_list m ++ walk_list_many ms
end

/-- The charset used for decoding: `part.get_content_charset() or "utf-8"`;
note Python's `or` also replaces an empty-string charset by utf-8. -/
def charset_or_utf8 : Option String → String
  | none => "utf-8"
  | some c => if c = "" then "utf-8" else c

/-- Translation of `NotesSummarizer.__extract_text_from_part`: if the
declared content type is exactly text/plain, decode the payload with the
declared charset (default utf-8); otherwise return the empty string.
A multipart node declaring text/plain would make `get_payload(decode=True)`
return `None` and the `.decode` attribute access raise; this cannot arise
from parsed bytes and is excluded by `MimeWf` below. -/
def extract_text_from_part : MimeMsg → Except String String
  | .part ct cs pl =>
    if ct = "text/plain" then py_decode (charset_or_utf8 cs) pl
    else Except.ok ""
  | .multipart ct _ =>
    if ct = "text/plain" then
      Except.error "AttributeError: NoneType object has no attribute decode"
    else Except.ok ""

/-- Accumulation of the loop `for part in message.walk(): text +=
self.__extract_text_from_part(part)`: concatenate the per-part texts in
order, propagating the first exception. -/
def accum_parts : List MimeMsg → Except String String
  | [] => Except.ok ""
  | p :: ps =>
    match extract_text_from_part p with
    | Except.error e => Except.error e
    | Except.ok t =>
      match accum_parts ps with
      | Except.error e => Except.error e
      | Except.ok r => Except.ok (t ++ r)

/-- Translation of `text.strip() if text else ""` applied to the
accumulated text. -/
def strip_if_nonempty (t : String) : String :=
  if t = "" then "" else py_strip t

/-- Translation of `NotesSummarizer._extract_text_from_multidata`, taking
the parsed message (Python's lenient `message_from_bytes` never raises, so
the parsed tree stands for the raw bytes): walk all parts when multipart,
else apply the single-part extractor to the whole message; strip the
result. -/
def extract_text_from_multidata (m : MimeMsg) : Except String String :=
  if m.isMultipart then
    (accum_parts (walk_list m)).map strip_if_nonempty
  else
    (extract_text_from_part m).map strip_if_nonempty

mutual
/-- Well-formedness of a parsed message: no multipart container declares
content type text/plain. Every tree produced by `message_from_bytes`
satisfies this, because a message whose declared type is text/plain gets
a string payload and is not multipart. -/
def MimeWf : MimeMsg → Bool
  | .part _ _ _ => true
  | .multipart ct subs => decide (ct ≠ "text/plain") && MimeWfMany subs

/-- Well-formedness of each message in a list. -/
def MimeWfMany : List MimeMsg → Bool
  | [] => true
  | m :: ms => MimeWf m && MimeWfMany ms
end

/-- One content block of a Bedrock message: a dict carrying a `text`
field (with its string value), or any other block (a dict without `text`
or a non-dict entry), which the code tolerates and skips. -/
inductive ContentBlock where
  | textBlock (s : String) : ContentBlock
  | other : ContentBlock
deriving DecidableEq

/-- A Bedrock message dict: its `role` and its optional `content` list
(`message.get("content", [])` defaults a missing content to the empty
list). -/
structure BMessage where
  role : String
  content : Option (List ContentBlock)
deriving DecidableEq

/-- The `output` dict of a Converse response: `output.get("message")`. -/
structure ConverseOutput where
  message : Option BMessage
deriving DecidableEq

/-- A Converse API response, reduced to the field the code reads:
`response["output"]`. -/
structure ConverseResponse where
  output : ConverseOutput
deriving DecidableEq

/-- The completion capability behind `_call_bedrock`: given the
conversation it either returns a response or raises (a transport
failure), modelled as a function parameter since the network is external
to the program. The fixed model id, system prompt and inference
configuration are constants folded into the oracle. -/
def BedrockOracle := List BMessage → Except String ConverseResponse

/-- Translation of `NotesSummarizer._extract_text`:
`next((str(b["text"]) for b in content if isinstance(b, dict) and "text"
in b), "")` — the first text-carrying block, else the empty string. -/
def extract_text (m : BMessage) : String :=
  ((m.content.getD []).findSome? fun b =>
    match b with
    | ContentBlock.textBlock s => some s
    | ContentBlock.other => none).getD ""

/-- Translation of `NotesSummarizer._get_bedrock_response_and_append`:
call Bedrock; if the output has no message raise
`ValueError("Bedrock response did not contain a message in output")`;
otherwise append the message to the conversation (state passing models
the in-place `conversation.append`) and return it. -/
def get_bedrock_response_and_append (bedrock : BedrockOracle)
    (conversation : List BMessage) :
    Except String (BMessage × List BMessage) :=
  match bedrock conversation with
  | Except.error e => Except.error e
  | Except.ok response =>
    match response.output.message with
    | none => Except.error "Bedrock response did not contain a message in output"
    | some m => Except.ok (m, conversation ++ [m])

/-- The class constant `PROMPT_SECTION_SEPARATOR`. -/
def PROMPT_SECTION_SEPARATOR : String := "\n###\n"

/-- A single user turn with one text content block, as built by both
pipeline stages. -/
def user_turn (t : String) : BMessage :=
  { role := "user", content := some [ContentBlock.textBlock t] }

/-- The summarization prompt built by `summarize_meeting_notes` around
the extracted text. -/
def summarization_prompt (text : String) : String :=
  "Please provide a concise summary of the following meeting notes, highlighting key points and action items:"
    ++ PROMPT_SECTION_SEPARATOR ++ text ++ PROMPT_SECTION_SEPARATOR

/-- Fallback returned when the summarization stage fails. -/
def SUMMARY_FALLBACK : String :=
  "An error occurred while summarizing the meeting notes."

/-- Translation of `NotesSummarizer.summarize_meeting_notes`. The
extraction call sits before the `try` block in the source, so an
extraction failure propagates (`Except.error`); only the Bedrock call
and reply extraction are guarded by the fallback. -/
def summarize_meeting_notes (bedrock : BedrockOracle) (notes : MimeMsg) :
    Except String String :=
  match extract_text_from_multidata notes with
  | Except.error e => Except.error e
  | Except.ok text =>
    match get_bedrock_response_and_append bedrock
        [user_turn (summarization_prompt text)] with
    | Except.ok (m, _) => Except.ok (extract_text m)
    | Except.error _ => Except.ok SUMMARY_FALLBACK

/-- The file-name inference prompt built by
`infer_meeting_notes_file_name`, with the notes interpolated between
single quotes. -/
def infer_file_name_prompt (notes : String) : String :=
  "Based on the following meeting notes, suggest a concise and descriptive file name for the summary.\n"
    ++ "The file name should be in lowercase, use hyphens instead of spaces, and end with .txt. "
    ++ "Avoid using special characters or punctuation other than hyphens.\n"
    ++ "Respond with only the file name, without any additional text or explanation.\n"
    ++ "Example 1:\n"
    ++ "Meeting Notes: \x27Discussed project timeline and assigned tasks to team members.\x27\n"
    ++ "Suggested File Name: project-timeline-and-tasks-summary.txt\n"
    ++ "Example 2:\n"
    ++ "Meeting Notes: \x27Reviewed quarterly financial results and planned budget adjustments.\x27\n"
    ++ "Suggested File Name: quarterly-financial-results-and-budget-planning-summary.txt\n\n"
    ++ "Meeting Notes: \x27" ++ notes ++ "\x27\n"
    ++ "Suggested File Name: "

/-- The single-turn conversation sent by the file-name inference stage. -/
def infer_file_name_messages (notes : String) : List BMessage :=
  [user_turn (infer_file_name_prompt notes)]

/-- Fallback returned when the file-name inference stage fails. -/
def FILE_NAME_FALLBACK : String := "meeting-notes-summary.txt"

/-- Translation of `NotesSummarizer.infer_meeting_notes_file_name`: a
total function — everything fallible is inside the `try`, so it never
raises. -/
def infer_meeting_notes_file_name (bedrock : BedrockOracle) (notes : String) :
    String :=
  match get_bedrock_response_and_append bedrock (infer_file_name_messages notes) with
  | Except.ok (m, _) => extract_text m
  | Except.error _ => FILE_NAME_FALLBACK

/-- Concatenation of a list of strings (right fold, so consing a string
prepends it definitionally). -/
def str_concat (ts : List String) : String :=
  ts.foldr (fun a b => a ++ b) ""

/-- Specification-side contribution of one walked part, following the
spec's words for claim C3: a part whose declared content type is exactly
text/plain contributes its payload decoded with its declared charset
(UTF-8 when unspecified); any other part contributes nothing. -/
def spec_part_contribution : MimeMsg → Except String (Option String)
  | .part ct cs pl =>
    if ct = "text/plain" then (py_decode (charset_or_utf8 cs) pl).map some
    else Except.ok none
  | .multipart _ _ => Except.ok none

/-- Specification-side collection of the contributing decoded payloads of
a list of parts, in order. -/
def spec_collect : List MimeMsg → Except String (List String)
  | [] => Except.ok []
  | p :: ps =>
    match spec_part_contribution p with
    | Except.error e => Except.error e
    | Except.ok c =>
      match spec_collect ps with
      | Except.error e => Except.error e
      | Except.ok r => Except.ok (match c with | some t => t :: r | none => r)

/-- Specification-side extractor, written from the spec's words for claim
C3: if the message is multipart, concatenate (in document traversal
order, nested multiparts included) the decoded payloads of exactly the
text/plain parts and trim surrounding whitespace; if not multipart, apply
the same single-part rule to the whole message. -/
def spec_extract (m : MimeMsg) : Except String String :=
  (spec_collect (if m.isMultipart then walk_list m else [m])).map
    (fun ts => py_strip (str_concat ts))

/-- Escape of one character inside a JSON string literal, as
`json.dumps` produces it for the characters arising here. -/
def json_escape_char (c : Char) : String :=
  if c = '"' then "\\\""
  else if c = '\\' then "\\\\"
  else if c = '\n' then "\\n"
  else if c = '\t' then "\\t"
  else if c = '\r' then "\\r"
  else String.singleton c

/-- Escape of a string for a JSON string literal. -/
def json_escape (s : String) : String :=
  String.join (s.toList.map json_escape_char)

/-- Model of `json.dumps` applied to a one-key error dict, as every error
response body in the source is built: the literal text
of the serialized object. -/
def json_error_body (msg : String) : String :=
  "\x7b\"error\": \"" ++ json_escape msg ++ "\"\x7d"

/-- Value of one base64 alphabet character, `none` for a non-alphabet
character. -/
def b64_char_val (c : Char) : Option Nat :=
  if 'A' ≤ c ∧ c ≤ 'Z' then some (c.toNat - 65)
  else if 'a' ≤ c ∧ c ≤ 'z' then some (c.toNat - 97 + 26)
  else if '0' ≤ c ∧ c ≤ '9' then some (c.toNat - 48 + 52)
  else if c = '+' then some 62
  else if c = '/' then some 63
  else none

/-- Reassemble 6-bit groups into bytes: each full quad gives three bytes,
a trailing pair one byte, a trailing triple two bytes. -/
def b64_quads : List Nat → List PyByte
  | a :: b :: c :: d :: rest =>
    (a * 4 + b / 16) :: ((b % 16) * 16 + c / 4) :: ((c % 4) * 64 + d) :: b64_quads rest
  | [a, b] => [a * 4 + b / 16]
  | [a, b, c] => [a * 4 + b / 16, (b % 16) * 16 + c / 4]
  | _ => []

/-- Model of Python's `base64.b64decode` on a `str` argument with default
`validate=False` (a standard-library collaborator): non-ASCII input
raises; characters outside the alphabet and `=` are discarded; a data
length of 1 mod 4 raises the `number of data characters` error; a total
kept length not a multiple of 4 raises `Incorrect padding`; otherwise the
data sextets are reassembled into bytes. The error strings are the
messages CPython's `binascii` raises. -/
def b64decode (s : String) : Except String (List PyByte) :=
  if s.toList.any (fun c => 128 ≤ c.toNat) then
    Except.error "string argument should contain only ASCII characters"
  else
    let kept := s.toList.filter (fun c => (b64_char_val c).isSome || c == '=')
    let data := kept.filter (fun c => c != '=')
    if data.length % 4 = 1 then
      Except.error ("Invalid base64-encoded string: number of data characters ("
        ++ toString data.length ++ ") cannot be 1 more than a multiple of 4")
    else if kept.length % 4 ≠ 0 then
      Except.error "Incorrect padding"
    else
      Except.ok (b64_quads (data.filterMap b64_char_val))

/-- Calendar fields of `datetime.now()` in the process's local time zone. -/
structure PyDate where
  year : Nat
  month : Nat
  day : Nat

/-- The S3 key composed by the handler:
`f"\x7bnow.year\x7d/\x7bnow.month\x7d/\x7bnow.day\x7d/\x7bfile_name\x7d"`,
with Python's unpadded decimal rendering of the calendar fields. -/
def s3_key_of (now : PyDate) (file_name : String) : String :=
  toString now.year ++ "/" ++ toString now.month ++ "/" ++ toString now.day
    ++ "/" ++ file_name

/-- An API Gateway style response: status code and body. -/
structure LambdaResponse where
  statusCode : Nat
  body : String
deriving DecidableEq

/-- Translation of `_validate_input`: the event is reduced to the value
of its `body` key (`none` when the key is absent, which is all the
validator inspects). -/
def validate_input (event : Option String) : Option LambdaResponse :=
  match event with
  | none => some ⟨400, json_error_body "Missing required parameter: body"⟩
  | some _ => none

/-- The S3 upload collaborator (`S3BucketManager.upload`): takes key and
content, may raise. -/
def Uploader := String → String → Except String Unit

/-- Model of `email.message_from_bytes` as an uninterpreted total
function: Python's lenient parser never raises, and no claim depends on
how bytes map to the parsed tree, so the handler is parametrized by it. -/
def ByteParser := List PyByte → MimeMsg

/-- Continuation after `s3_bucket_manager.upload(s3_key, summarized_note)`:
a raised storage error reaches the broad `except` (500), otherwise the
handler returns 200 with the raw summary text as the body. -/
def handle_upload (summarized_note : String) :
    Except String Unit → LambdaResponse
  | Except.error e => ⟨500, json_error_body e⟩
  | Except.ok _ => ⟨200, summarized_note⟩

/-- Continuation after `summarize_meeting_notes`: a propagated exception
reaches the broad `except` (500); otherwise infer the file name, compose
the date-partitioned S3 key and upload. -/
def handle_summary (bedrock : BedrockOracle) (upload : Uploader)
    (now : PyDate) : Except String String → LambdaResponse
  | Except.error e => ⟨500, json_error_body e⟩
  | Except.ok summarized_note =>
    let file_name := infer_meeting_notes_file_name bedrock summarized_note
    let s3_key := s3_key_of now file_name
    handle_upload summarized_note (upload s3_key summarized_note)

/-- Continuation after `b64decode(event["body"])`: a raised decode error
reaches the broad `except` (500); an empty decoded payload answers 400;
otherwise the pipeline runs on the decoded bytes. -/
def handle_decoded (bedrock : BedrockOracle) (parse : ByteParser)
    (upload : Uploader) (now : PyDate) :
    Except String (List PyByte) → LambdaResponse
  | Except.error e => ⟨500, json_error_body e⟩
  | Except.ok message =>
    if message.isEmpty then
      ⟨400, json_error_body "Transcript content is empty"⟩
    else
      handle_summary bedrock upload now
        (summarize_meeting_notes bedrock (parse message))

def lambda_handler_body (bedrock : BedrockOracle) (parse : ByteParser)
    (upload : Uploader) (now : PyDate) (bodyVal : String) : LambdaResponse :=
  handle_decoded bedrock parse upload now (b64decode bodyVal)

/-- Translation of `lambda_handler`: validation first, then the guarded
body. The inner `none` branch is unreachable because validation already
answered for a missing key. -/
def lambda_handler (bedrock : BedrockOracle) (parse : ByteParser)
    (upload : Uploader) (now : PyDate) (event : Option String) : LambdaResponse :=
  match validate_input event with
  | some validation_error => validation_error
  | none =>
    match event with
    | some bodyVal => lambda_handler_body bedrock parse upload now bodyVal
    | none => ⟨400, json_error_body "Missing required parameter: body"⟩

/-- Specification-side scan of the reply's content blocks, written from
the spec's words for claim C4: in order, skipping non-text blocks,
return the first text block's string, and the empty string when none
exists. -/
def first_text_scan : List ContentBlock → String
  | [] => ""
  | ContentBlock.textBlock s :: _ => s
  | ContentBlock.other :: rest => first_text_scan rest

/-- A reply whose single content block carries the text `s`, used by the
concrete witnesses. -/
def stub_reply (s : String) : ConverseResponse :=
  ⟨⟨some ⟨"assistant", some [ContentBlock.textBlock s]⟩⟩⟩

/-- A capability that always answers with `stub_reply s`. -/
def stub_bedrock (s : String) : BedrockOracle :=
  fun _ => Except.ok (stub_reply s)

/-- A capability that always raises a transport failure. -/
def fail_bedrock : BedrockOracle :=
  fun _ => Except.error "transport failure"

/-- A capability whose response carries no message in its output. -/
def no_message_bedrock : BedrockOracle :=
  fun _ => Except.ok ⟨⟨none⟩⟩

theorem extract_text_eq_scan (m : BMessage) :
    extract_text m = first_text_scan (m.content.getD []) := by
  unfold extract_text
  induction m.content.getD [] with
  | nil => rfl
  | cons b rest ih =>
    cases b with
    | textBlock s => simp [List.findSome?_cons, first_text_scan]
    | other => simpa [List.findSome?_cons, first_text_scan] using ih

/-- The reply message carried by `stub_reply "hi"`, named for the
witnesses. -/
def hi_reply_msg : BMessage := ⟨"assistant", some [ContentBlock.textBlock "hi"]⟩

/-- C4: given the capability answered (transport success), the round-trip
call raises the no-reply `ValueError` exactly when the response's output
carries no message; when a message is present the call succeeds and the
text extracted from it is the first text-carrying content block in scan
order, non-text blocks skipped, empty string when none exists. -/
theorem noreply_iff_no_message (bedrock : BedrockOracle)
    (conversation : List BMessage) (response : ConverseResponse)
    (h : bedrock conversation = Except.ok response) :
    (get_bedrock_response_and_append bedrock conversation
        = Except.error "Bedrock response did not contain a message in output"
      ↔ response.output.message = none)
    ∧ ∀ m, response.output.message = some m →
        get_bedrock_response_and_append bedrock conversation
          = Except.ok (m, conversation ++ [m])
        ∧ extract_text m = first_text_scan (m.content.getD []) := by
  have hred : get_bedrock_response_and_append bedrock conversation
      = match response.output.message with
        | none => Except.error "Bedrock response did not contain a message in output"
        | some m => Except.ok (m, conversation ++ [m]) := by
    unfold get_bedrock_response_and_append
    rw [h]
  constructor
  · rw [hred]
    cases response.output.message with
    | none => simp
    | some m => simp
  · intro m hm
    rw [hred, hm]
    exact ⟨rfl, extract_text_eq_scan m⟩

theorem noreply_iff_no_message_witness :
    (get_bedrock_response_and_append no_message_bedrock []
        = Except.error "Bedrock response did not contain a message in output"
      ↔ (ConverseResponse.mk (ConverseOutput.mk none)).output.message = none)
    ∧ (get_bedrock_response_and_append (stub_bedrock "hi") []
        = Except.ok (hi_reply_msg, [] ++ [hi_reply_msg])
        ∧ extract_text hi_reply_msg
          = first_text_scan (hi_reply_msg.content.getD [])) :=
  ⟨(noreply_iff_no_message no_message_bedrock []
      (ConverseResponse.mk (ConverseOutput.mk none)) rfl).1,
   (noreply_iff_no_message (stub_bedrock "hi") [] (stub_reply "hi") rfl).2
     hi_reply_msg rfl⟩

/-- C8: when the round-trip call succeeds, the new conversation is the
old one with exactly the reply appended at the end: its length grows by
one and every previously existing turn is unchanged at its index. -/
theorem conversation_append_only (bedrock : BedrockOracle)
    (conversation : List BMessage) (m : BMessage) (newConv : List BMessage)
    (h : get_bedrock_response_and_append bedrock conversation
        = Except.ok (m, newConv)) :
    newConv = conversation ++ [m]
    ∧ newConv.length = conversation.length + 1
    ∧ ∀ i, i < conversation.length → newConv[i]? = conversation[i]? := by
  unfold get_bedrock_response_and_append at h
  cases hb : bedrock conversation with
  | error e =>
    rw [hb] at h
    exact absurd h (by simp)
  | ok response =>
    rw [hb] at h
    have h' : (match response.output.message with
        | none => (Except.error "Bedrock response did not contain a message in output"
            : Except String (BMessage × List BMessage))
        | some m0 => Except.ok (m0, conversation ++ [m0]))
        = Except.ok (m, newConv) := h
    cases hm : response.output.message with
    | none =>
      rw [hm] at h'
      exact absurd h' (by simp)
    | some m0 =>
      rw [hm] at h'
      have hpair : (m0, conversation ++ [m0]) = (m, newConv) := by
        simpa using h'
      rw [Prod.mk.injEq] at hpair
      obtain ⟨h1, h2⟩ := hpair
      subst h1
      refine ⟨h2.symm, ?_, ?_⟩
      · rw [← h2]
        simp
      · intro i hi
        rw [← h2]
        simp [List.getElem?_append, hi]

theorem conversation_append_only_witness :
    [user_turn "q", hi_reply_msg] = [user_turn "q"] ++ [hi_reply_msg]
    ∧ [user_turn "q", hi_reply_msg].length = [user_turn "q"].length + 1
    ∧ ∀ i, i < [user_turn "q"].length →
        [user_turn "q", hi_reply_msg][i]? = [user_turn "q"][i]? :=
  conversation_append_only (stub_bedrock "hi") [user_turn "q"]
    hi_reply_msg [user_turn "q", hi_reply_msg] rfl

/-- A non-multipart text/plain message whose payload byte 0xFF is not
decodable as UTF-8 (the default charset), corresponding to the raw bytes
`Content-Type: text/plain` + blank line + `0xFF`. -/
def undecodable_msg : MimeMsg := MimeMsg.part "text/plain" none [255]

/-- A multipart message with one text/plain part whose payload `0xC3` is
a truncated UTF-8 sequence. -/
def bad_multipart : MimeMsg :=
  MimeMsg.multipart "multipart/mixed" [MimeMsg.part "text/plain" none [195]]

/-- Reduction of `summarize_meeting_notes` when extraction succeeds. -/
theorem summarize_eq_of_extract_ok (bedrock : BedrockOracle) (notes : MimeMsg)
    (t : String) (hext : extract_text_from_multidata notes = Except.ok t) :
    summarize_meeting_notes bedrock notes
      = match get_bedrock_response_and_append bedrock
            [user_turn (summarization_prompt t)] with
        | Except.ok (m, _) => Except.ok (extract_text m)
        | Except.error _ => Except.ok SUMMARY_FALLBACK := by
  unfold summarize_meeting_notes
  rw [hext]

/-- C1 counterexample: with a completion capability that raises on every
call, on the input `undecodable_msg` the method `summarize_meeting_notes`
raises a decode error (the extraction call at line 201 sits before the
`try` block) instead of returning the fallback string, refuting the
claim's universal quantification over inputs. -/
theorem summarize_raises_on_undecodable_counterexample :
    summarize_meeting_notes fail_bedrock undecodable_msg
        = Except.error "UnicodeDecodeError: invalid start byte"
    ∧ summarize_meeting_notes fail_bedrock undecodable_msg
        ≠ Except.ok SUMMARY_FALLBACK :=
  ⟨by decide, by decide⟩

/-- C1 amended: for every input on which text extraction does not raise,
if every call to the completion capability raises then
`summarize_meeting_notes` returns exactly the summarization fallback
string without raising; and `infer_meeting_notes_file_name` (whose
fallible work is entirely inside its `try`) returns exactly
`meeting-notes-summary.txt` without raising, for every notes string. -/
theorem summarize_and_infer_fallback_when_capability_fails
    (bedrock : BedrockOracle)
    (hfail : ∀ conversation, ∃ e, bedrock conversation = Except.error e)
    (notes : MimeMsg) (t : String)
    (hext : extract_text_from_multidata notes = Except.ok t) (s : String) :
    summarize_meeting_notes bedrock notes = Except.ok SUMMARY_FALLBACK
    ∧ infer_meeting_notes_file_name bedrock s = FILE_NAME_FALLBACK := by
  have gb : ∀ conv : List BMessage, ∃ e,
      get_bedrock_response_and_append bedrock conv = Except.error e := by
    intro conv
    obtain ⟨e, he⟩ := hfail conv
    refine ⟨e, ?_⟩
    unfold get_bedrock_response_and_append
    rw [he]
  constructor
  · rw [summarize_eq_of_extract_ok bedrock notes t hext]
    obtain ⟨e, he⟩ := gb [user_turn (summarization_prompt t)]
    rw [he]
  · unfold infer_meeting_notes_file_name
    obtain ⟨e, he⟩ := gb (infer_file_name_messages s)
    rw [he]

theorem summarize_and_infer_fallback_when_capability_fails_witness :
    summarize_meeting_notes fail_bedrock (MimeMsg.part "text/plain" none [72, 105])
        = Except.ok SUMMARY_FALLBACK
    ∧ infer_meeting_notes_file_name fail_bedrock "notes text" = FILE_NAME_FALLBACK :=
  summarize_and_infer_fallback_when_capability_fails fail_bedrock
    (fun _ => ⟨"transport failure", rfl⟩)
    (MimeMsg.part "text/plain" none [72, 105]) "Hi" (by decide) "notes text"

/-- C2 counterexample: on `bad_multipart` text extraction fails, and
`summarize_meeting_notes` propagates that failure to its caller — even
with a perfectly working capability — instead of returning the
summarization fallback string. -/
theorem extract_failure_not_caught_counterexample :
    extract_text_from_multidata bad_multipart
        = Except.error "UnicodeDecodeError: unexpected end of data"
    ∧ summarize_meeting_notes (stub_bedrock "SUMMARY") bad_multipart
        = Except.error "UnicodeDecodeError: unexpected end of data"
    ∧ summarize_meeting_notes (stub_bedrock "SUMMARY") bad_multipart
        ≠ Except.ok SUMMARY_FALLBACK :=
  ⟨by decide, by decide, by decide⟩

/-- C2 amended: for every raw payload on which text extraction fails,
`summarize_meeting_notes` propagates exactly that failure to its caller
(where the handler's top-level `except` turns it into a 500 response);
the broad fallback guards only the Bedrock call and reply extraction. -/
theorem summarize_propagates_extract_failure (bedrock : BedrockOracle)
    (notes : MimeMsg) (e : String)
    (hext : extract_text_from_multidata notes = Except.error e) :
    summarize_meeting_notes bedrock notes = Except.error e := by
  unfold summarize_meeting_notes
  rw [hext]

theorem summarize_propagates_extract_failure_witness :
    summarize_meeting_notes (stub_bedrock "SUMMARY")
        (MimeMsg.part "text/plain" none [200])
      = Except.error "UnicodeDecodeError: unexpected end of data" :=
  summarize_propagates_extract_failure (stub_bedrock "SUMMARY")
    (MimeMsg.part "text/plain" none [200])
    "UnicodeDecodeError: unexpected end of data" (by decide)

/-- Node-level well-formedness: a multipart container does not declare
content type text/plain (so `get_payload(decode=True)` is never `None`
where the code decodes). -/
def node_ok : MimeMsg → Bool
  | .part _ _ _ => true
  | .multipart ct _ => decide (ct ≠ "text/plain")

theorem part_eq_contribution (p : MimeMsg) (hp : node_ok p = true) :
    extract_text_from_part p
      = (spec_part_contribution p).map (fun c => c.getD "") := by
  cases p with
  | part ct cs pl =>
    simp only [extract_text_from_part, spec_part_contribution]
    by_cases h : ct = "text/plain"
    · rw [if_pos h, if_pos h]
      cases py_decode (charset_or_utf8 cs) pl <;> simp [Except.map]
    · rw [if_neg h, if_neg h]
      rfl
  | multipart ct subs =>
    simp only [node_ok, decide_eq_true_eq] at hp
    simp only [extract_text_from_part, spec_part_contribution]
    rw [if_neg hp]
    rfl

theorem accum_eq_collect (l : List MimeMsg)
    (hl : ∀ p ∈ l, node_ok p = true) :
    accum_parts l = (spec_collect l).map str_concat := by
  induction l with
  | nil => rfl
  | cons p ps ih =>
    have hp := hl p (List.mem_cons_self p ps)
    have hps : ∀ q ∈ ps, node_ok q = true :=
      fun q hq => hl q (List.mem_cons_of_mem p hq)
    simp only [accum_parts, spec_collect]
    rw [part_eq_contribution p hp, ih hps]
    cases hc : spec_part_contribution p with
    | error e => simp [Except.map]
    | ok c =>
      cases hcc : spec_collect ps with
      | error e => simp [Except.map]
      | ok r =>
        cases c with
        | none => simp [Except.map, str_concat]
        | some t => simp [Except.map, str_concat]

mutual
theorem walk_nodes_ok : ∀ (m : MimeMsg), MimeWf m = true →
    ∀ p ∈ walk_list m, node_ok p = true
  | .part ct cs pl, _ => by
    intro p hp
    simp only [walk_list, List.mem_singleton] at hp
    subst hp
    rfl
  | .multipart ct subs, h => by
    intro p hp
    simp only [walk_list] at hp
    simp only [MimeWf, Bool.and_eq_true] at h
    obtain ⟨h1, h2⟩ := h
    rcases List.mem_cons.mp hp with hp | hp
    · subst hp
      exact h1
    · exact walk_many_nodes_ok subs h2 p hp

theorem walk_many_nodes_ok : ∀ (l : List MimeMsg), MimeWfMany l = true →
    ∀ p ∈ walk_list_many l, node_ok p = true
  | [], _ => by
    intro p hp
    simp only [walk_list_many] at hp
    exact absurd hp (List.not_mem_nil p)
  | m :: ms, h => by
    intro p hp
    simp only [walk_list_many] at hp
    simp only [MimeWfMany, Bool.and_eq_true] at h
    obtain ⟨h1, h2⟩ := h
    rcases List.mem_append.mp hp with hp | hp
    · exact walk_nodes_ok m h1 p hp
    · exact walk_many_nodes_ok ms h2 p hp
end

theorem strip_if_nonempty_eq_py_strip (t : String) :
    strip_if_nonempty t = py_strip t := by
  simp only [strip_if_nonempty]
  by_cases ht : t = ""
  · rw [if_pos ht, ht]
    rfl
  · rw [if_neg ht]

/-- C3: on every well-formed parsed message (every tree
`message_from_bytes` can produce), the source extractor agrees with the
specification-side extractor `spec_extract`: for a multipart message the
result is the concatenation, in document traversal order including
nested multiparts, of the decoded payloads of exactly the parts declared
text/plain (each decoded with its declared charset or UTF-8 when
unspecified), trimmed of surrounding whitespace; non-text/plain parts
contribute nothing; with no text/plain part the result is the empty
string; a non-multipart message gets the same single-part rule. -/
theorem extract_matches_spec (m : MimeMsg) (h : MimeWf m = true) :
    extract_text_from_multidata m = spec_extract m := by
  cases m with
  | part ct cs pl =>
    have hsingle : spec_collect [MimeMsg.part ct cs pl]
        = (spec_part_contribution (MimeMsg.part ct cs pl)).map
            (fun c => match c with | some t => [t] | none => []) := by
      simp only [spec_collect]
      cases hc : spec_part_contribution (MimeMsg.part ct cs pl) with
      | error e => simp [Except.map]
      | ok c => cases c <;> simp [Except.map, spec_collect]
    simp only [extract_text_from_multidata, spec_extract, MimeMsg.isMultipart,
      Bool.false_eq_true, if_false]
    rw [hsingle, part_eq_contribution (MimeMsg.part ct cs pl) rfl]
    cases hc : spec_part_contribution (MimeMsg.part ct cs pl) with
    | error e => simp [Except.map]
    | ok c =>
      cases c with
      | none => simp [Except.map, str_concat, strip_if_nonempty_eq_py_strip]
      | some t => simp [Except.map, str_concat, strip_if_nonempty_eq_py_strip]
  | multipart ct subs =>
    have hl := walk_nodes_ok (MimeMsg.multipart ct subs) h
    simp only [extract_text_from_multidata, spec_extract, MimeMsg.isMultipart,
      if_true]
    rw [accum_eq_collect (walk_list (MimeMsg.multipart ct subs)) hl]
    cases hc : spec_collect (walk_list (MimeMsg.multipart ct subs)) with
    | error e => simp [Except.map]
    | ok ts => simp [Except.map, strip_if_nonempty_eq_py_strip]

theorem extract_matches_spec_witness :
    extract_text_from_multidata (MimeMsg.multipart "multipart/mixed"
        [MimeMsg.part "text/plain" none [65],
         MimeMsg.part "text/html" none [60, 98, 62, 66, 60, 47, 98, 62]])
      = spec_extract (MimeMsg.multipart "multipart/mixed"
        [MimeMsg.part "text/plain" none [65],
         MimeMsg.part "text/html" none [60, 98, 62, 66, 60, 47, 98, 62]])
    ∧ spec_extract (MimeMsg.multipart "multipart/mixed"
        [MimeMsg.part "text/plain" none [65],
         MimeMsg.part "text/html" none [60, 98, 62, 66, 60, 47, 98, 62]])
      = Except.ok "A" :=
  ⟨extract_matches_spec _ (by decide), by decide⟩

/-- A parser stub returning a decodable text/plain message (`"Hi"`). -/
def stub_parse : ByteParser := fun _ => MimeMsg.part "text/plain" none [72, 105]

/-- A parser stub returning a text/plain message with an undecodable
payload byte. -/
def stub_parse_undecodable : ByteParser := fun _ => MimeMsg.part "text/plain" none [255]

/-- An upload stub that always succeeds. -/
def stub_upload_ok : Uploader := fun _ _ => Except.ok ()

/-- An upload stub that always raises. -/
def stub_upload_fail : Uploader := fun _ _ => Except.error "AccessDenied"

/-- C5: the handler's response envelope. A missing `body` key answers 400
with the missing-parameter error body; a payload decoding to empty bytes
answers 400 with the empty-transcript error body; a raised exception
(from decoding, the pipeline, or the upload) answers 500 with the
exception's message in the error body; and when every stage succeeds the
handler answers 200 with the raw summary text as the body, not
JSON-wrapped. -/
theorem handler_envelope (bedrock : BedrockOracle) (parse : ByteParser)
    (upload : Uploader) (now : PyDate) :
    (lambda_handler bedrock parse upload now none
        = ⟨400, json_error_body "Missing required parameter: body"⟩)
    ∧ (∀ b, b64decode b = Except.ok [] →
        lambda_handler bedrock parse upload now (some b)
          = ⟨400, json_error_body "Transcript content is empty"⟩)
    ∧ (∀ b e, b64decode b = Except.error e →
        lambda_handler bedrock parse upload now (some b)
          = ⟨500, json_error_body e⟩)
    ∧ (∀ b bytes e, b64decode b = Except.ok bytes → bytes ≠ [] →
        summarize_meeting_notes bedrock (parse bytes) = Except.error e →
        lambda_handler bedrock parse upload now (some b)
          = ⟨500, json_error_body e⟩)
    ∧ (∀ b bytes s e, b64decode b = Except.ok bytes → bytes ≠ [] →
        summarize_meeting_notes bedrock (parse bytes) = Except.ok s →
        upload (s3_key_of now (infer_meeting_notes_file_name bedrock s)) s
          = Except.error e →
        lambda_handler bedrock parse upload now (some b)
          = ⟨500, json_error_body e⟩)
    ∧ (∀ b bytes s, b64decode b = Except.ok bytes → bytes ≠ [] →
        summarize_meeting_notes bedrock (parse bytes) = Except.ok s →
        upload (s3_key_of now (infer_meeting_notes_file_name bedrock s)) s
          = Except.ok () →
        lambda_handler bedrock parse upload now (some b) = ⟨200, s⟩) := by
  have hbody : ∀ b, lambda_handler bedrock parse upload now (some b)
      = handle_decoded bedrock parse upload now (b64decode b) := fun b => rfl
  have hne_false : ∀ bytes : List PyByte, bytes ≠ [] → bytes.isEmpty = false := by
    intro bytes hne
    cases bytes with
    | nil => exact absurd rfl hne
    | cons a l => rfl
  refine ⟨rfl, ?_, ?_, ?_, ?_, ?_⟩
  · intro b hdec
    rw [hbody b, hdec]
    rfl
  · intro b e hdec
    rw [hbody b, hdec]
    rfl
  · intro b bytes e hdec hne hsum
    rw [hbody b, hdec]
    simp only [handle_decoded, hne_false bytes hne, Bool.false_eq_true, if_false]
    rw [hsum]
    rfl
  · intro b bytes s e hdec hne hsum hup
    rw [hbody b, hdec]
    simp only [handle_decoded, hne_false bytes hne, Bool.false_eq_true, if_false]
    rw [hsum]
    simp only [handle_summary]
    rw [hup]
    rfl
  · intro b bytes s hdec hne hsum hup
    rw [hbody b, hdec]
    simp only [handle_decoded, hne_false bytes hne, Bool.false_eq_true, if_false]
    rw [hsum]
    simp only [handle_summary]
    rw [hup]
    rfl

theorem handler_envelope_witness :
    (lambda_handler (stub_bedrock "SUMMARY") stub_parse stub_upload_ok
        ⟨2024, 3, 7⟩ none
      = ⟨400, json_error_body "Missing required parameter: body"⟩)
    ∧ (lambda_handler (stub_bedrock "SUMMARY") stub_parse stub_upload_ok
        ⟨2024, 3, 7⟩ (some "")
      = ⟨400, json_error_body "Transcript content is empty"⟩)
    ∧ (lambda_handler (stub_bedrock "SUMMARY") stub_parse stub_upload_ok
        ⟨2024, 3, 7⟩ (some "AA")
      = ⟨500, json_error_body "Incorrect padding"⟩)
    ∧ (lambda_handler (stub_bedrock "SUMMARY") stub_parse_undecodable
        stub_upload_ok ⟨2024, 3, 7⟩ (some "QUJD")
      = ⟨500, json_error_body "UnicodeDecodeError: invalid start byte"⟩)
    ∧ (lambda_handler (stub_bedrock "SUMMARY") stub_parse stub_upload_fail
        ⟨2024, 3, 7⟩ (some "QUJD")
      = ⟨500, json_error_body "AccessDenied"⟩)
    ∧ (lambda_handler (stub_bedrock "SUMMARY") stub_parse stub_upload_ok
        ⟨2024, 3, 7⟩ (some "QUJD")
      = ⟨200, "SUMMARY"⟩) :=
  ⟨(handler_envelope (stub_bedrock "SUMMARY") stub_parse stub_upload_ok
      ⟨2024, 3, 7⟩).1,
   (handler_envelope (stub_bedrock "SUMMARY") stub_parse stub_upload_ok
      ⟨2024, 3, 7⟩).2.1 "" (by decide),
   (handler_envelope (stub_bedrock "SUMMARY") stub_parse stub_upload_ok
      ⟨2024, 3, 7⟩).2.2.1 "AA" "Incorrect padding" (by decide),
   (handler_envelope (stub_bedrock "SUMMARY") stub_parse_undecodable
      stub_upload_ok ⟨2024, 3, 7⟩).2.2.2.1 "QUJD" [65, 66, 67]
      "UnicodeDecodeError: invalid start byte" (by decide) (by decide) (by decide),
   (handler_envelope (stub_bedrock "SUMMARY") stub_parse stub_upload_fail
      ⟨2024, 3, 7⟩).2.2.2.2.1 "QUJD" [65, 66, 67] "SUMMARY" "AccessDenied"
      (by decide) (by decide) (by decide) rfl,
   (handler_envelope (stub_bedrock "SUMMARY") stub_parse stub_upload_ok
      ⟨2024, 3, 7⟩).2.2.2.2.2 "QUJD" [65, 66, 67] "SUMMARY"
      (by decide) (by decide) (by decide) rfl⟩

theorem small_nat_repr (n : Nat) (h1 : 1 ≤ n) (h2 : n ≤ 31) :
    1 ≤ (toString n).length ∧ (toString n).length ≤ 2
    ∧ (toString n).front ≠ '0' := by
  have key : ∀ m, m < 32 → 1 ≤ m →
      (1 ≤ (toString m).length ∧ (toString m).length ≤ 2
        ∧ (toString m).front ≠ '0') := by decide
  exact key n (Nat.lt_succ_of_le h2) h1

/-- C6: the storage key is exactly year/month/day/fileName built from the
calendar fields of `now`, month and day rendered as unpadded decimal
numerals (one or two digits, no leading zero) for any valid calendar
values; in particular the 2024-03-07 example gives `2024/3/7/notes.txt`.
Determinism in `(now, fileName)` holds because `s3_key_of` is a pure
function of these two arguments. -/
theorem s3_key_format (now : PyDate) (f : String)
    (hm1 : 1 ≤ now.month) (hm2 : now.month ≤ 12)
    (hd1 : 1 ≤ now.day) (hd2 : now.day ≤ 31) :
    s3_key_of now f
      = toString now.year ++ "/" ++ toString now.month ++ "/"
        ++ toString now.day ++ "/" ++ f
    ∧ (1 ≤ (toString now.month).length ∧ (toString now.month).length ≤ 2
        ∧ (toString now.month).front ≠ '0')
    ∧ (1 ≤ (toString now.day).length ∧ (toString now.day).length ≤ 2
        ∧ (toString now.day).front ≠ '0')
    ∧ s3_key_of ⟨2024, 3, 7⟩ "notes.txt" = "2024/3/7/notes.txt" :=
  ⟨rfl, small_nat_repr now.month hm1 (Nat.le_trans hm2 (by decide)),
   small_nat_repr now.day hd1 hd2, by decide⟩

theorem s3_key_format_witness :
    s3_key_of ⟨2024, 3, 7⟩ "notes.txt"
      = toString (2024 : Nat) ++ "/" ++ toString (3 : Nat) ++ "/"
        ++ toString (7 : Nat) ++ "/" ++ "notes.txt"
    ∧ (1 ≤ (toString (3 : Nat)).length ∧ (toString (3 : Nat)).length ≤ 2
        ∧ (toString (3 : Nat)).front ≠ '0')
    ∧ (1 ≤ (toString (7 : Nat)).length ∧ (toString (7 : Nat)).length ≤ 2
        ∧ (toString (7 : Nat)).front ≠ '0')
    ∧ s3_key_of ⟨2024, 3, 7⟩ "notes.txt" = "2024/3/7/notes.txt" :=
  s3_key_format ⟨2024, 3, 7⟩ "notes.txt" (by decide) (by decide)
    (by decide) (by decide)

/-- Two successive runs of the extractor on the same bytes, modelling the
spec's double-extraction experiment. -/
def extract_twice (m : MimeMsg) : Except String String × Except String String :=
  (extract_text_from_multidata m, extract_text_from_multidata m)

/-- C7: extraction is a pure, deterministic function of its input bytes —
the embedded extractor reads nothing but its argument (no field of
`NotesSummarizer` is mutated by it), so running it twice on the same
parsed payload yields the same result both times. -/
theorem extract_deterministic (m : MimeMsg) :
    (extract_twice m).1 = (extract_twice m).2 := rfl

/-- C9: a non-empty `body` value that is not valid base64 (here `"A"`)
makes `b64decode` raise; the handler answers 500 carrying the decoder's
exception message, not a 400 validation response — indeed
`_validate_input` accepts every event that has the key, whatever its
value. -/
theorem invalid_base64_is_500 (bedrock : BedrockOracle) (parse : ByteParser)
    (upload : Uploader) (now : PyDate) :
    b64decode "A" = Except.error "Invalid base64-encoded string: number of data characters (1) cannot be 1 more than a multiple of 4"
    ∧ lambda_handler bedrock parse upload now (some "A")
        = ⟨500, json_error_body "Invalid base64-encoded string: number of data characters (1) cannot be 1 more than a multiple of 4"⟩
    ∧ (lambda_handler bedrock parse upload now (some "A")).statusCode ≠ 400
    ∧ ∀ b, validate_input (some b) = none := by
  have h500 : lambda_handler bedrock parse upload now (some "A")
      = ⟨500, json_error_body "Invalid base64-encoded string: number of data characters (1) cannot be 1 more than a multiple of 4"⟩ := by
    have hb : lambda_handler bedrock parse upload now (some "A")
        = handle_decoded bedrock parse upload now (b64decode "A") := rfl
    rw [hb, (by decide : b64decode "A" = Except.error "Invalid base64-encoded string: number of data characters (1) cannot be 1 more than a multiple of 4")]
    rfl
  refine ⟨by decide, h500, ?_, fun b => rfl⟩
  rw [h500]
  decide

/-- A capability replying with a file name that is not lowercase, not
hyphenated, and contains a slash and spaces. -/
def weird_name_bedrock : BedrockOracle :=
  fun _ => Except.ok (stub_reply "My Meeting Notes/V1.TXT")

/-- C10: whatever message the model replies with to the file-name
inference conversation, `infer_meeting_notes_file_name` returns the text
extracted from it verbatim — no lowercasing, no hyphenation, no `.txt`
or forbidden-character check — and the handler splices that exact string
after the date prefix of the storage key, slashes and spaces included;
the requested format lives only in the prompt. -/
theorem infer_returns_reply_verbatim (bedrock : BedrockOracle)
    (notes : String) (m : BMessage)
    (h : bedrock (infer_file_name_messages notes)
        = Except.ok (ConverseResponse.mk (ConverseOutput.mk (some m)))) :
    infer_meeting_notes_file_name bedrock notes = extract_text m
    ∧ ∀ now : PyDate, s3_key_of now (extract_text m)
        = toString now.year ++ "/" ++ toString now.month ++ "/"
          ++ toString now.day ++ "/" ++ extract_text m := by
  constructor
  · have hred : get_bedrock_response_and_append bedrock
        (infer_file_name_messages notes)
        = Except.ok (m, infer_file_name_messages notes ++ [m]) := by
      unfold get_bedrock_response_and_append
      rw [h]
    unfold infer_meeting_notes_file_name
    rw [hred]
  · intro now
    rfl

theorem infer_returns_reply_verbatim_witness :
    infer_meeting_notes_file_name weird_name_bedrock "the notes"
        = extract_text (BMessage.mk "assistant"
            (some [ContentBlock.textBlock "My Meeting Notes/V1.TXT"]))
    ∧ s3_key_of ⟨2024, 3, 7⟩ (extract_text (BMessage.mk "assistant"
            (some [ContentBlock.textBlock "My Meeting Notes/V1.TXT"])))
        = "2024/3/7/My Meeting Notes/V1.TXT" :=
  ⟨(infer_returns_reply_verbatim weird_name_bedrock "the notes"
      (BMessage.mk "assistant"
        (some [ContentBlock.textBlock "My Meeting Notes/V1.TXT"])) rfl).1,
   by decide⟩
